import Mathlib

/-!
Shallow embedding of `src/main.cpp` (type-erased zoo): a fixed-capacity,
heap-free type-erasure container `AnyAnimal` with a hand-built dispatch table
(`VTable`) holding three function pointers (invoke capability, destroy stored
value, relocate stored value), plus the four concrete animal classes and the
demo driver.

Modelling choices:
- The bytes of the 128-byte buffer are not modelled; what matters to the
  claims is which live object (if any) occupies the storage, so `storage_`
  is `Option α` (`some v` = exactly one live object `v` at the start of the
  buffer, `none` = no live object).  `vptr` is `Option (VTable α)`
  (`none` = null table pointer).  Keeping the two fields independent lets
  the invariant "`vptr` non-null iff storage holds a live object" be a
  theorem about the operations rather than true by construction.
- Destructor runs are observable events (`Event.destroy v`); each operation
  returns the ordered list of destructor events it performs.
- The capability prints to stdout; its observable effect is modelled as the
  `String` it writes.  Invoking the capability on a container yields a
  `CallResult`: normal `output`, the `assertionFailure` of
  `assert(vptr && "Empty AnyAnimal")`, or `undefinedRead` for the state
  (non-null `vptr`, dead storage) that the public interface never produces
  and whose behaviour in C++ would be undefined.
- A concrete type `T` is represented by its value type `α` together with a
  `TypeInfo α`: `sizeof(T)`, `alignof(T)` and the capability method.  The
  `static_assert`s of the value constructor are embedded as the guard of
  the checked constructor `AnyAnimal.tryMk`: a `T` failing them yields no
  container at all (compile-time rejection; no runtime fallback).
- The identity comparison `this == &other` of move-assignment is modelled
  by an explicit `isSelf : Bool` argument (pointer identity is not a
  property of values).
-/

namespace ZooMain

/-- main.cpp line 85: `static constexpr size_t BUFFER_SIZE = 128`. -/
def BUFFER_SIZE : Nat := 128

/-- main.cpp line 86: `ALIGNMENT = alignof(std::max_align_t)`;
16 on the reference LP64 platform. -/
def ALIGNMENT : Nat := 16

/-- A destructor run on the live object `v` (effect of `std::destroy_at`). -/
inductive Event (α : Type) where
  | destroy (v : α)
  deriving DecidableEq, Repr

/-- The data of a concrete erasable type `T`: its size, alignment and its
capability method `void print_food_requirements() const`, whose observable
effect is the string it writes to stdout. -/
structure TypeInfo (α : Type) where
  size : Nat
  align : Nat
  print_food_requirements : α → String

/-- main.cpp lines 88-93: the dispatch table of three function pointers.
`destroy` returns the destructor events it performs; `move` returns the
object constructed at `dst` together with the destructor events performed
at `src`. -/
structure VTable (α : Type) where
  print_food_requirements : α → String
  destroy : α → List (Event α)
  move : α → α × List (Event α)

/-- main.cpp lines 98-115: `vtable_for<T>`.  `print_food_requirements`
casts and calls the capability; `destroy` runs `std::destroy_at` on the
stored `T` (one destructor event); `move` move-constructs a `T` at `dst`
from the `T` at `src` and then destroys the moved-from source (the value is
relocated unchanged — Lean values have no object identity — and one
destructor event is emitted for the moved-from source object). -/
def vtable_for {α : Type} (info : TypeInfo α) : VTable α where
  print_food_requirements := fun data => info.print_food_requirements data
  destroy := fun p => [Event.destroy p]
  move := fun src => (src, [Event.destroy src])

/-- main.cpp lines 95-96: the container state.  `storage_ = some v` means
exactly one live object `v` occupies the start of the buffer; `vptr = none`
models a null table pointer. -/
structure AnyAnimal (α : Type) where
  storage_ : Option α
  vptr : Option (VTable α)

/-- Result of invoking the capability on a container. -/
inductive CallResult where
  | assertionFailure
  | undefinedRead
  | output (s : String)
  deriving DecidableEq, Repr

namespace AnyAnimal

variable {α : Type}

/-- main.cpp lines 118-127, after the `static_assert`s have passed:
move-construct `obj` into the storage and bind `vptr` to `T`'s table. -/
def fromValue (info : TypeInfo α) (obj : α) : AnyAnimal α :=
  { storage_ := some obj, vptr := some (vtable_for info) }

/-- main.cpp lines 118-127 with the two `static_assert`s (lines 124-125)
as a guard: a type whose size or alignment does not fit produces no
container at all (the construction is rejected before it can run). -/
def tryMk (info : TypeInfo α) (obj : α) : Option (AnyAnimal α) :=
  if info.size ≤ BUFFER_SIZE ∧ info.align ≤ ALIGNMENT then
    some (fromValue info obj)
  else
    none

/-- main.cpp lines 129-136: the destructor.  If `vptr` is non-null it runs
`vptr->destroy(storage_)`; the returned list is the ordered destructor
events.  (A non-null `vptr` over dead storage is unreachable through the
public interface; the model performs no event there.) -/
def dtor (a : AnyAnimal α) : List (Event α) :=
  match a.vptr, a.storage_ with
  | some vt, some v => vt.destroy v
  | _, _ => []

/-- main.cpp lines 138-150: move-construction.  Returns
(the new container, the source afterwards, the destructor events).
If the source's `vptr` is non-null the held object is relocated via the
source's table and the source's `vptr` is set to null; otherwise the new
container is empty and the source is untouched. -/
def moveCtor (other : AnyAnimal α) : AnyAnimal α × AnyAnimal α × List (Event α) :=
  match other.vptr with
  | some vt =>
      match other.storage_ with
      | some v =>
          let r := vt.move v
          (⟨some r.1, some vt⟩, ⟨none, none⟩, r.2)
      | none =>
          -- unreachable through the public interface (UB in the source:
          -- relocation would read a dead object)
          (⟨none, some vt⟩, ⟨none, none⟩, [])
  | none => (⟨none, none⟩, other, [])

/-- main.cpp lines 152-171: move-assignment.  `isSelf` models the identity
comparison `this == &other` (line 154); when it holds the operator returns
immediately.  Otherwise the current value (if any) is destroyed through the
container's own table pointer, then the same relocation / empty-transfer as
move-construction is performed.  Returns
(this afterwards, other afterwards, the ordered destructor events). -/
def moveAssign (isSelf : Bool) (self other : AnyAnimal α) :
    AnyAnimal α × AnyAnimal α × List (Event α) :=
  if isSelf then (self, other, [])
  else
    let destroyed : List (Event α) :=
      match self.vptr, self.storage_ with
      | some vt, some v => vt.destroy v
      | _, _ => []
    match other.vptr with
    | some vt =>
        match other.storage_ with
        | some v =>
            let r := vt.move v
            (⟨some r.1, some vt⟩, ⟨none, none⟩, destroyed ++ r.2)
        | none =>
            -- unreachable through the public interface (UB in the source)
            (⟨none, some vt⟩, ⟨none, none⟩, destroyed)
    | none => (⟨none, none⟩, other, destroyed)

/-- main.cpp lines 176-180: invoke the capability.
`assert(vptr && "Empty AnyAnimal")` fires when `vptr` is null; otherwise the
call is forwarded through the table pointer.  `undefinedRead` marks the
state (non-null `vptr`, dead storage) that the public interface never
produces. -/
def print_food_requirements (a : AnyAnimal α) : CallResult :=
  match a.vptr with
  | none => CallResult.assertionFailure
  | some vt =>
      match a.storage_ with
      | some v => CallResult.output (vt.print_food_requirements v)
      | none => CallResult.undefinedRead

/-- The container invariant: the table pointer is non-null exactly when the
storage holds a live object. -/
def WF (a : AnyAnimal α) : Prop :=
  a.vptr.isSome = a.storage_.isSome

instance (a : AnyAnimal α) : Decidable a.WF := by
  unfold WF; infer_instance

end AnyAnimal

/-! ### The animal hierarchy (main.cpp lines 10-79) -/

/-- main.cpp lines 12-31: the base class; its capability prints
`name_ << " needs: "`. -/
structure Animal where
  name_ : String

/-- main.cpp lines 19-22: `Animal::print_food_requirements`. -/
def Animal.print_food_requirements (a : Animal) : String :=
  a.name_ ++ " needs: "

/-- main.cpp lines 33-43. -/
structure Elephant where
  toAnimal : Animal

/-- `Elephant() : Animal{"Elephant"}`. -/
def Elephant.new : Elephant := ⟨⟨"Elephant"⟩⟩

/-- main.cpp lines 38-42: base output followed by the elephant's line. -/
def Elephant.print_food_requirements (e : Elephant) : String :=
  e.toAnimal.print_food_requirements ++ "hay, fruit, vegetables (300kg/day)"

/-- main.cpp lines 45-55. -/
structure Zebra where
  toAnimal : Animal

/-- `Zebra() : Animal{"Zebra"}`. -/
def Zebra.new : Zebra := ⟨⟨"Zebra"⟩⟩

/-- main.cpp lines 50-54. -/
def Zebra.print_food_requirements (z : Zebra) : String :=
  z.toAnimal.print_food_requirements ++ "hay, grass (15kg/day)"

/-- main.cpp lines 57-67. -/
structure Lion where
  toAnimal : Animal

/-- `Lion() : Animal{"Lion"}`. -/
def Lion.new : Lion := ⟨⟨"Lion"⟩⟩

/-- main.cpp lines 62-66. -/
def Lion.print_food_requirements (l : Lion) : String :=
  l.toAnimal.print_food_requirements ++ "meat (11kg/day)"

/-- main.cpp lines 69-79 (defined in the source, unused by `main`). -/
structure Penguin where
  toAnimal : Animal

/-- `Penguin() : Animal{"Penguin"}`. -/
def Penguin.new : Penguin := ⟨⟨"Penguin"⟩⟩

/-- main.cpp lines 74-78. -/
def Penguin.print_food_requirements (p : Penguin) : String :=
  p.toAnimal.print_food_requirements ++ "fish (2kg/day)"

/-- `sizeof`/`alignof` for the animal classes on the reference LP64
platform (a vtable pointer plus a 32-byte `std::string`): size 40,
alignment 8 — well within the 128-byte, max-aligned buffer, so the
`static_assert`s pass and the program compiles. -/
def Elephant.info : TypeInfo Elephant :=
  { size := 40, align := 8, print_food_requirements := Elephant.print_food_requirements }

/-- Type data for `Zebra` (same layout as the other animal classes). -/
def Zebra.info : TypeInfo Zebra :=
  { size := 40, align := 8, print_food_requirements := Zebra.print_food_requirements }

/-- Type data for `Lion`. -/
def Lion.info : TypeInfo Lion :=
  { size := 40, align := 8, print_food_requirements := Lion.print_food_requirements }

/-- Type data for `Penguin`. -/
def Penguin.info : TypeInfo Penguin :=
  { size := 40, align := 8, print_food_requirements := Penguin.print_food_requirements }

/-! ### The demo driver (main.cpp lines 183-199) -/

/-- One roster entry of `main`: the container is constructed from the value
by `emplace_back`, relocated by the vector's growth (via the `noexcept`
move constructor), and the capability is invoked on it by the print loop. -/
def roster_entry {α : Type} (info : TypeInfo α) (v : α) : CallResult :=
  ((AnyAnimal.moveCtor (AnyAnimal.fromValue info v)).1).print_food_requirements

/-- main.cpp lines 183-199: build containers from a `Lion`, a `Zebra` and
an `Elephant` in that order and invoke the capability on each in sequence
order; the list holds the results in the order they are printed. -/
def main_output : List CallResult :=
  [ roster_entry Lion.info Lion.new,
    roster_entry Zebra.info Zebra.new,
    roster_entry Elephant.info Elephant.new ]

/-! ### Theorems for the claims -/

/-- C1: for every concrete type `T` with the capability method,
`sizeof(T) ≤ 128` and alignment at most the platform maximum (i.e. for
every `T` the checked constructor accepts), constructing an `AnyAnimal`
from a value `t` of `T` and invoking `print_food_requirements()` on the
container produces exactly the observable output of calling
`t.print_food_requirements()` directly. -/
theorem C1_construct_then_invoke {α : Type} (info : TypeInfo α) (t : α)
    (c : AnyAnimal α) (h : AnyAnimal.tryMk info t = some c) :
    c.print_food_requirements
      = CallResult.output (info.print_food_requirements t) := by
  unfold AnyAnimal.tryMk at h
  split at h
  · cases h
    rfl
  · cases h

/-- Witness for C1 at `T = Lion`: the container built from a fresh `Lion`
reports exactly the lion's own food requirements. -/
theorem C1_witness :
    (AnyAnimal.fromValue Lion.info Lion.new).print_food_requirements
      = CallResult.output (Lion.info.print_food_requirements Lion.new) :=
  C1_construct_then_invoke Lion.info Lion.new _ rfl

/-- C2: moving out of a non-empty container (whose table pointer is the
table generated for its type) leaves the source empty — null table pointer,
no live object, and a subsequent move from it transfers nothing — while the
destination (of move-construction, and of move-assignment onto any
destination `d`) reproduces the exact capability behaviour the source had
before the move. -/
theorem C2_move_transfers {α : Type} (info : TypeInfo α) (s d : AnyAnimal α)
    (v : α) (hv : s.vptr = some (vtable_for info)) (hs : s.storage_ = some v) :
    (AnyAnimal.moveCtor s).2.1.vptr = none ∧
    (AnyAnimal.moveCtor s).2.1.storage_ = none ∧
    (AnyAnimal.moveCtor ((AnyAnimal.moveCtor s).2.1)).1.vptr = none ∧
    (AnyAnimal.moveCtor ((AnyAnimal.moveCtor s).2.1)).1.storage_ = none ∧
    (AnyAnimal.moveCtor s).1.print_food_requirements
      = s.print_food_requirements ∧
    (AnyAnimal.moveAssign false d s).2.1.vptr = none ∧
    (AnyAnimal.moveAssign false d s).2.1.storage_ = none ∧
    (AnyAnimal.moveAssign false d s).1.print_food_requirements
      = s.print_food_requirements := by
  obtain ⟨st, vp⟩ := s
  simp only at hv hs
  subst hv hs
  refine ⟨rfl, rfl, rfl, rfl, rfl, ?_, ?_, ?_⟩ <;>
    simp [AnyAnimal.moveAssign, AnyAnimal.print_food_requirements, vtable_for]

/-- Witness for C2: moving a container holding a `Zebra` out (by
construction and by assignment onto another `Zebra`-holding container)
empties the source and preserves the zebra's reported output. -/
theorem C2_witness :
    (AnyAnimal.moveCtor (AnyAnimal.fromValue Zebra.info Zebra.new)).2.1.vptr = none ∧
    (AnyAnimal.moveCtor (AnyAnimal.fromValue Zebra.info Zebra.new)).2.1.storage_ = none ∧
    (AnyAnimal.moveCtor ((AnyAnimal.moveCtor (AnyAnimal.fromValue Zebra.info Zebra.new)).2.1)).1.vptr = none ∧
    (AnyAnimal.moveCtor ((AnyAnimal.moveCtor (AnyAnimal.fromValue Zebra.info Zebra.new)).2.1)).1.storage_ = none ∧
    (AnyAnimal.moveCtor (AnyAnimal.fromValue Zebra.info Zebra.new)).1.print_food_requirements
      = (AnyAnimal.fromValue Zebra.info Zebra.new).print_food_requirements ∧
    (AnyAnimal.moveAssign false (AnyAnimal.fromValue Zebra.info ⟨⟨"Old zebra"⟩⟩)
        (AnyAnimal.fromValue Zebra.info Zebra.new)).2.1.vptr = none ∧
    (AnyAnimal.moveAssign false (AnyAnimal.fromValue Zebra.info ⟨⟨"Old zebra"⟩⟩)
        (AnyAnimal.fromValue Zebra.info Zebra.new)).2.1.storage_ = none ∧
    (AnyAnimal.moveAssign false (AnyAnimal.fromValue Zebra.info ⟨⟨"Old zebra"⟩⟩)
        (AnyAnimal.fromValue Zebra.info Zebra.new)).1.print_food_requirements
      = (AnyAnimal.fromValue Zebra.info Zebra.new).print_food_requirements :=
  C2_move_transfers Zebra.info (AnyAnimal.fromValue Zebra.info Zebra.new)
    (AnyAnimal.fromValue Zebra.info ⟨⟨"Old zebra"⟩⟩) Zebra.new rfl rfl

/-- C5: invoking the capability requires a non-empty container.  On a
well-formed container the assertion `assert(vptr && "Empty AnyAnimal")`
fires exactly when the table pointer is null; when it is non-null the
assertion never fires and the call is forwarded through the table pointer
to the stored value, with no other effect. -/
theorem C5_invoke_requires_nonempty {α : Type} (a : AnyAnimal α)
    (ha : a.WF) :
    (a.vptr = none →
      a.print_food_requirements = CallResult.assertionFailure) ∧
    (∀ vt : VTable α, a.vptr = some vt →
      ∃ v : α, a.storage_ = some v ∧
        a.print_food_requirements
          = CallResult.output (vt.print_food_requirements v)) := by
  obtain ⟨st, vp⟩ := a
  constructor
  · intro h
    simp only at h
    subst h
    rfl
  · intro vt h
    simp only at h
    subst h
    unfold AnyAnimal.WF at ha
    simp only [Option.isSome_some] at ha
    cases st with
    | none => simp at ha
    | some v => exact ⟨v, rfl, rfl⟩

/-- Witness for C5: the moved-from (empty) container fails the assertion. -/
theorem C5_witness :
    ((AnyAnimal.moveCtor (AnyAnimal.fromValue Lion.info Lion.new)).2.1).print_food_requirements
      = CallResult.assertionFailure :=
  (C5_invoke_requires_nonempty
    (AnyAnimal.moveCtor (AnyAnimal.fromValue Lion.info Lion.new)).2.1 rfl).1 rfl

/-- C6: self-move-assignment (the identity comparison `this == &other`
holds) is a no-op: the container — its storage, its table pointer, hence
its capability behaviour — is unchanged and no destructor or relocation
event is performed. -/
theorem C6_self_move_noop {α : Type} (a : AnyAnimal α) :
    AnyAnimal.moveAssign true a a = (a, a, []) :=
  rfl

/-- C3: every operation preserves the invariant: the table pointer is
non-null iff exactly one live object occupies the storage (at most one by
the shape of the state), and construction from a value always yields a
non-empty container (so the empty state is reachable only as the source of
a move). -/
theorem C3_invariant {α : Type} (info : TypeInfo α) (x : α)
    (a b : AnyAnimal α) (isSelf : Bool) (ha : a.WF) (hb : b.WF) :
    (AnyAnimal.fromValue info x).WF ∧
    (AnyAnimal.fromValue info x).storage_ = some x ∧
    (AnyAnimal.fromValue info x).vptr = some (vtable_for info) ∧
    (AnyAnimal.moveCtor b).1.WF ∧
    (AnyAnimal.moveCtor b).2.1.WF ∧
    (AnyAnimal.moveAssign isSelf a b).1.WF ∧
    (AnyAnimal.moveAssign isSelf a b).2.1.WF := by
  obtain ⟨sa, va⟩ := a
  obtain ⟨sb, vb⟩ := b
  unfold AnyAnimal.WF at ha hb
  simp only at ha hb
  refine ⟨rfl, rfl, rfl, ?_, ?_, ?_, ?_⟩ <;>
    cases isSelf <;> cases sa <;> cases va <;> cases sb <;> cases vb <;>
      simp_all [AnyAnimal.moveCtor, AnyAnimal.moveAssign, AnyAnimal.WF]

/-- Witness for C3 at concrete `Lion` containers. -/
theorem C3_witness :
    (AnyAnimal.fromValue Lion.info Lion.new).WF ∧
    (AnyAnimal.fromValue Lion.info Lion.new).storage_ = some Lion.new ∧
    (AnyAnimal.fromValue Lion.info Lion.new).vptr = some (vtable_for Lion.info) ∧
    (AnyAnimal.moveCtor (AnyAnimal.fromValue Lion.info ⟨⟨"Simba"⟩⟩)).1.WF ∧
    (AnyAnimal.moveCtor (AnyAnimal.fromValue Lion.info ⟨⟨"Simba"⟩⟩)).2.1.WF ∧
    (AnyAnimal.moveAssign false (AnyAnimal.fromValue Lion.info Lion.new)
        (AnyAnimal.fromValue Lion.info ⟨⟨"Simba"⟩⟩)).1.WF ∧
    (AnyAnimal.moveAssign false (AnyAnimal.fromValue Lion.info Lion.new)
        (AnyAnimal.fromValue Lion.info ⟨⟨"Simba"⟩⟩)).2.1.WF :=
  C3_invariant Lion.info Lion.new (AnyAnimal.fromValue Lion.info Lion.new)
    (AnyAnimal.fromValue Lion.info ⟨⟨"Simba"⟩⟩) false rfl rfl

/-- C4: destructor discipline.  Destroying a non-empty container (whose
table pointer is the table generated for its type) runs the held value's
destructor exactly once; destroying an empty (moved-from) container runs no
destructor; and move-assignment onto a container currently holding a value
destroys that value first — through the container's own table pointer —
before anything is installed (the destructor event opens the trace). -/
theorem C4_destructor_once {α : Type} (infoA infoD : TypeInfo α)
    (a e d o : AnyAnimal α) (v vd : α)
    (hva : a.vptr = some (vtable_for infoA)) (hsa : a.storage_ = some v)
    (he : e.vptr = none)
    (hvd : d.vptr = some (vtable_for infoD)) (hsd : d.storage_ = some vd) :
    a.dtor = [Event.destroy v] ∧
    e.dtor = [] ∧
    ∃ rest, (AnyAnimal.moveAssign false d o).2.2 = Event.destroy vd :: rest := by
  refine ⟨?_, ?_, ?_⟩
  · obtain ⟨sa, va⟩ := a
    simp only at hva hsa
    subst hva hsa
    rfl
  · obtain ⟨se, ve⟩ := e
    simp only at he
    subst he
    cases se <;> rfl
  · obtain ⟨sd, vdp⟩ := d
    simp only at hvd hsd
    subst hvd hsd
    obtain ⟨so, vo⟩ := o
    cases vo with
    | none => exact ⟨[], rfl⟩
    | some vt => cases so with
      | none => exact ⟨[], rfl⟩
      | some w => exact ⟨(vt.move w).2, rfl⟩

/-- Witness for C4 at concrete `Lion` containers. -/
theorem C4_witness :
    (AnyAnimal.fromValue Lion.info Lion.new).dtor = [Event.destroy Lion.new] ∧
    (AnyAnimal.moveCtor (AnyAnimal.fromValue Lion.info Lion.new)).2.1.dtor = [] ∧
    ∃ rest, (AnyAnimal.moveAssign false (AnyAnimal.fromValue Lion.info ⟨⟨"Old lion"⟩⟩)
        (AnyAnimal.fromValue Lion.info Lion.new)).2.2
      = Event.destroy (⟨⟨"Old lion"⟩⟩ : Lion) :: rest :=
  C4_destructor_once Lion.info Lion.info
    (AnyAnimal.fromValue Lion.info Lion.new)
    (AnyAnimal.moveCtor (AnyAnimal.fromValue Lion.info Lion.new)).2.1
    (AnyAnimal.fromValue Lion.info ⟨⟨"Old lion"⟩⟩)
    (AnyAnimal.fromValue Lion.info Lion.new)
    Lion.new ⟨⟨"Old lion"⟩⟩ rfl rfl rfl rfl rfl

/-- C7: a type whose size exceeds the 128-byte capacity, or whose alignment
exceeds the buffer's alignment, is rejected before any container exists
(the `static_assert` guard), and there is no other path: a container is
produced exactly when both checks pass. -/
theorem C7_compile_time_rejection {α : Type} (info : TypeInfo α) (obj : α) :
    ((BUFFER_SIZE < info.size ∨ ALIGNMENT < info.align) →
      AnyAnimal.tryMk info obj = none) ∧
    ((AnyAnimal.tryMk info obj).isSome ↔
      (info.size ≤ BUFFER_SIZE ∧ info.align ≤ ALIGNMENT)) := by
  unfold AnyAnimal.tryMk
  constructor
  · intro h
    split
    · next hc => exact absurd hc (by omega)
    · rfl
  · split <;> simp_all

/-- A dummy type too large for the buffer: 129 bytes. -/
def hugeInfo : TypeInfo Unit :=
  { size := 129, align := 8, print_food_requirements := fun _ => "" }

/-- Witness for C7: the 129-byte type is rejected — no container results. -/
theorem C7_witness : AnyAnimal.tryMk hugeInfo () = none :=
  (C7_compile_time_rejection hugeInfo ()).1 (Or.inl (by decide))

/-- C8: the demo roster built from a `Lion`, then a `Zebra`, then an
`Elephant` prints, in that order, the meat line, the hay/grass line and the
hay/fruit/vegetables line, each prefixed by the respective type's name —
the sequence is neither reordered nor deduplicated. -/
theorem C8_main_roster_order :
    main_output =
      [ CallResult.output "Lion needs: meat (11kg/day)",
        CallResult.output "Zebra needs: hay, grass (15kg/day)",
        CallResult.output "Elephant needs: hay, fruit, vegetables (300kg/day)" ] :=
  rfl

/-- C10: the move operations are total — for every pair of containers,
including an empty source and the self-assignment case, they complete with
a fully determined result and no failure path (the codomain has no error
outcome): self-assignment returns immediately; an empty source yields an
empty destination and transfers nothing; a non-empty source is relocated
through its table. -/
theorem C10_move_total {α : Type} (a b : AnyAnimal α) :
    (AnyAnimal.moveAssign true a b = (a, b, [])) ∧
    (b.vptr = none →
      AnyAnimal.moveCtor b = (⟨none, none⟩, b, []) ∧
      AnyAnimal.moveAssign false a b = (⟨none, none⟩, b, a.dtor)) ∧
    (∀ (vt : VTable α) (v : α), b.vptr = some vt → b.storage_ = some v →
      AnyAnimal.moveCtor b
        = (⟨some (vt.move v).1, some vt⟩, ⟨none, none⟩, (vt.move v).2) ∧
      AnyAnimal.moveAssign false a b
        = (⟨some (vt.move v).1, some vt⟩, ⟨none, none⟩,
           a.dtor ++ (vt.move v).2)) := by
  refine ⟨rfl, ?_, ?_⟩
  · intro hb
    obtain ⟨sb, vb⟩ := b
    simp only at hb
    subst hb
    exact ⟨rfl, rfl⟩
  · intro vt v hvt hsv
    obtain ⟨sb, vb⟩ := b
    simp only at hvt hsv
    subst hvt hsv
    exact ⟨rfl, rfl⟩

/-- Witness for C10: relocating an `Elephant`-holding container, by
construction and by assignment onto another `Elephant` container. -/
theorem C10_witness :
    AnyAnimal.moveCtor (AnyAnimal.fromValue Elephant.info Elephant.new)
      = (⟨some ((vtable_for Elephant.info).move Elephant.new).1,
          some (vtable_for Elephant.info)⟩, ⟨none, none⟩,
         ((vtable_for Elephant.info).move Elephant.new).2) ∧
    AnyAnimal.moveAssign false (AnyAnimal.fromValue Elephant.info ⟨⟨"Dumbo"⟩⟩)
        (AnyAnimal.fromValue Elephant.info Elephant.new)
      = (⟨some ((vtable_for Elephant.info).move Elephant.new).1,
          some (vtable_for Elephant.info)⟩, ⟨none, none⟩,
         (AnyAnimal.fromValue Elephant.info ⟨⟨"Dumbo"⟩⟩).dtor
           ++ ((vtable_for Elephant.info).move Elephant.new).2) :=
  (C10_move_total (AnyAnimal.fromValue Elephant.info ⟨⟨"Dumbo"⟩⟩)
      (AnyAnimal.fromValue Elephant.info Elephant.new)).2.2
    (vtable_for Elephant.info) Elephant.new rfl rfl

end ZooMain
